import Mathlib

/-!
Verification of the ExpenseSyncBot core against its specification.

This file is a shallow embedding of the Python code of the repository:

* `src/services/mcp_client.py` — the remote tool session (`MCPClient`,
  `MCPClientManager`): connection with bounded retries, tool dispatch,
  disconnect lifecycle.
* `src/expense_agents/tools.py` — the Google-Sheets persistence tool
  wrappers `write_range`, `get_ranges`, `get_next_row`.
* `src/expense_agents/orchestrator.py` — the terminal result mapping of
  `process_receipt_with_agents`.
* `src/agents/tools.py` — the expense format validator
  (`validate_expense` / `_validate_format`).

External effects (the SSE transport, the model backend, the remote MCP
server, the wall clock) are passed in as explicit oracle parameters, so
every function below is a pure, executable translation of the Python
control flow.  Python dictionaries are modelled as association lists with
first-match lookup; merged dicts `\x7b"success": True, **d\x7d` are modelled so
that the keys of `d` win the lookup, exactly as in Python.
-/

/-- A JSON-like Python value, as passed around by the tool layer.
Association lists model dicts; lookup takes the first matching key. -/
inductive JVal where
  | null
  | bool (b : Bool)
  | num (n : Int)
  | str (s : String)
  | arr (xs : List JVal)
  | obj (fields : List (String × JVal))

/-- Python truthiness (`bool(v)`) for the modelled values: `None`, `False`,
`0`, `""`, `[]` and `\x7b\x7d` are falsy, everything else truthy. -/
def truthy : JVal → Bool
  | .null => false
  | .bool b => b
  | .num n => n != 0
  | .str s => s != ""
  | .arr xs => !xs.isEmpty
  | .obj fs => !fs.isEmpty

/-- Python dict lookup with default, `d.get(k, default)`: first value
bound to `k`, or the default.
Mirrors Python `dict.get` — a key present with value `None` returns
`None`, not the default. -/
def dgetD (fs : List (String × JVal)) (k : String) (d : JVal) : JVal :=
  match fs.find? (fun p => p.1 == k) with
  | some p => p.2
  | none => d

/-- Python dict lookup `d.get(k)`: lookup with `None` as the default. -/
def dget (fs : List (String × JVal)) (k : String) : JVal :=
  dgetD fs k .null

/-- Python `a or b` on modelled values: `a` if truthy, else `b`. -/
def pyOr (a b : JVal) : JVal :=
  if truthy a then a else b

/-- Python `repr` of a list of strings, e.g. `[\x27a\x27, \x27b\x27]`, as produced
by the f-string `f"Available: \x7bself.available_tools\x7d"`. -/
def pyStrList (xs : List String) : String :=
  "[" ++ String.intercalate ", " (xs.map (fun t => "\x27" ++ t ++ "\x27")) ++ "]"

/-!
## Remote tool session: `MCPClient` (src/services/mcp_client.py)

State: `_session` (the transport handle, `Option Unit` here), `_tools`
(the discovered tool-name table; only names matter to the claims), and
`_connected`.
-/

/-- The mutable fields of `MCPClient.__init__`. -/
structure MCPClientState where
  session : Option Unit
  tools : List String
  connected : Bool
deriving DecidableEq

/-- The state right after `MCPClient.__init__`. -/
def initialMCPClientState : MCPClientState := ⟨none, [], false⟩

namespace MCPClient

/-- Property `MCPClient.is_connected`: the connected flag and a held session. -/
def is_connected (s : MCPClientState) : Bool :=
  s.connected && s.session.isSome

/-- Property `MCPClient.available_tools`: the list of discovered tool names. -/
def available_tools (s : MCPClientState) : List String :=
  s.tools

/-- Outcome of one connection attempt inside `MCPClient.connect`:
success discovers a tool table; a failure can happen before the session
object is stored (`sse_client`/`ClientSession` construction fails) or
after (`initialize`/`list_tools` fails, leaving a stale `_session`). -/
inductive ConnectAttempt where
  | ok (tools : List String)
  | failEarly
  | failLate
deriving DecidableEq

/-- Whether an attempt outcome is a failure. -/
def ConnectAttempt.isFail : ConnectAttempt → Bool
  | .ok _ => false
  | .failEarly => true
  | .failLate => true

/-- Result of `MCPClient.connect`: the final state, the returned boolean,
and the trace of `asyncio.sleep` delays inserted between attempts. -/
structure ConnectRun where
  state : MCPClientState
  result : Bool
  sleeps : List ℚ
deriving DecidableEq

/-- The `for attempt in range(retry_attempts)` loop body of
`MCPClient.connect`, one list element per remaining attempt.  On success
the session, tool table and connected flag are set and the loop returns
`True`; on failure the code sleeps `retry_delay` seconds iff another
attempt remains; when the loop exhausts all attempts `_connected` is set
to `False` and `False` is returned. -/
def connectAux (d : ℚ) (s : MCPClientState) : List ConnectAttempt → ConnectRun
  | [] => ⟨{ s with connected := false }, false, []⟩
  | a :: rest =>
    match a with
    | .ok ts => ⟨⟨some (), ts, true⟩, true, []⟩
    | .failEarly =>
      let r := connectAux d s rest
      ⟨r.state, r.result, if rest.isEmpty then r.sleeps else d :: r.sleeps⟩
    | .failLate =>
      let r := connectAux d { s with session := some () } rest
      ⟨r.state, r.result, if rest.isEmpty then r.sleeps else d :: r.sleeps⟩

/-- Embedding of `MCPClient.connect`, with the per-attempt transport
outcomes supplied by the oracle `o`. -/
def connect (s : MCPClientState) (retry_attempts : Nat) (retry_delay : ℚ)
    (o : Nat → ConnectAttempt) : ConnectRun :=
  connectAux retry_delay s ((List.range retry_attempts).map o)

end MCPClient

/-- Default `MCPSettings.retry_attempts` (src/core/configs.py). -/
def mcp_retry_attempts_default : Nat := 3

/-- Default `MCPSettings.retry_delay` in seconds (src/core/configs.py). -/
def mcp_retry_delay_default : ℚ := 1

/-- Observable actions a call performs against the outside world:
an attempt to (re)connect the transport, or a remote tool invocation. -/
inductive Event where
  | connectAttempt
  | remoteCall (tool : String)
deriving DecidableEq

/-- One MCP content block of a tool-call result.  A block either has no
`text` attribute, or its text parses as a JSON object, parses as JSON
that is not an object (so `\x7b"success": True, **data\x7d` raises
`TypeError`), or fails to parse as JSON at all. -/
inductive ContentBlock where
  | textObj (fields : List (String × JVal))
  | textNonObj (errMsg : String)
  | textRaw (raw : String)
  | noText

/-- The `for content in result.content: if hasattr(content, "text") ... break`
scan: the first block carrying a `text` attribute. -/
def firstTextBlock : List ContentBlock → Option ContentBlock
  | [] => none
  | .noText :: rest => firstTextBlock rest
  | b :: _ => some b

namespace MCPClient

/-- What the transport does for `self._session.call_tool(...)`:
either it returns a result with content blocks, or it raises. -/
inductive RemoteCall where
  | returns (content : List ContentBlock)
  | raises (msg : String)

/-- The message of the `RuntimeError` raised for an unknown tool name:
`f"Tool \x27\x7btool_name\x7d\x27 not found. Available: \x7bself.available_tools\x7d"`. -/
def unknownToolMsg (tool_name : String) (tools : List String) : String :=
  "Tool \x27" ++ tool_name ++ "\x27 not found. Available: " ++ pyStrList tools

/-- The result-content processing inside the try block of `MCPClient.call_tool`:
empty content returns `\x7b"success": True, "result": None\x7d`; otherwise the
first text block is parsed and merged as `\x7b"success": True, **data\x7d`
(the parsed keys win the lookup, hence they are listed first); JSON that
is not an object makes the merge raise (propagated as `.error`). -/
def processContent (content : List ContentBlock) : Except String JVal :=
  if content.isEmpty then
    .ok (.obj [("success", .bool true), ("result", .null)])
  else
    match firstTextBlock content with
    | none => .ok (.obj [("success", .bool true)])
    | some (.textObj fields) => .ok (.obj (fields ++ [("success", .bool true)]))
    | some (.textNonObj e) => .error e
    | some (.textRaw r) => .ok (.obj [("success", .bool true), ("result", .str r)])
    | some .noText => .ok (.obj [("success", .bool true)])

/-- Embedding of `MCPClient.call_tool`.  `Except.error` models an uncaught Python
exception propagating to the caller; the second component is the trace
of externally observable actions.  Not connected: raises `RuntimeError`
immediately (no reconnection, no remote traffic).  Unknown tool: raises
`RuntimeError` carrying the known remote tool names.  Otherwise the
remote call runs; a transport exception is caught and folded into
`\x7b"success": False, "error": str(e)\x7d`. -/
def call_tool (s : MCPClientState) (tool_name : String) (remote : RemoteCall) :
    Except String JVal × List Event :=
  if !is_connected s then
    (.error "Not connected to MCP server", [])
  else if !(s.tools.contains tool_name) then
    (.error (unknownToolMsg tool_name s.tools), [])
  else
    match remote with
    | .raises m =>
      (.ok (.obj [("success", .bool false), ("error", .str m)]), [.remoteCall tool_name])
    | .returns content =>
      match processContent content with
      | .ok v => (.ok v, [.remoteCall tool_name])
      | .error e =>
        (.ok (.obj [("success", .bool false), ("error", .str e)]), [.remoteCall tool_name])

/-- Embedding of `MCPClient.disconnect`: if a session is held, drop it, clear the tool
table and the connected flag; otherwise do nothing.  The Python method
never raises. -/
def disconnect (s : MCPClientState) : MCPClientState :=
  if s.session.isSome then ⟨none, [], false⟩ else s

end MCPClient

/-- One lifecycle operation on a `MCPClient`, used to characterise the
reachable session states. -/
inductive ClientOp where
  | connect (retry_attempts : Nat) (retry_delay : ℚ) (outcomes : Nat → MCPClient.ConnectAttempt)
  | callTool (tool_name : String) (remote : MCPClient.RemoteCall)
  | disconnect

/-- State transition of one operation (`call_tool` never mutates the
connection state in the source). -/
def clientStep (s : MCPClientState) : ClientOp → MCPClientState
  | .connect n d o => (MCPClient.connect s n d o).state
  | .callTool _ _ => s
  | .disconnect => MCPClient.disconnect s

/-- Run a sequence of lifecycle operations from a start state. -/
def clientRun (s : MCPClientState) (ops : List ClientOp) : MCPClientState :=
  ops.foldl clientStep s

/-!
## `MCPClientManager` (src/services/mcp_client.py, lines 185-349)

The module-level singleton `mcp_client` used by the persistence tools is
a `MCPClientManager`.  Its `call_tool` does not consult any session
state: it opens a fresh SSE connection for every call, and catches every
exception, returning `{"success": False, "error": str(e)}`.
-/

namespace MCPClientManager

/-- What the outside world does for one `MCPClientManager.call_tool`:
the fresh connection (sse handshake + initialize) fails, or the remote
tool call raises, or it returns content blocks. -/
inductive MgrOutcome where
  | connectFail (msg : String)
  | callRaises (msg : String)
  | callReturns (content : List ContentBlock)

/-- Result-content processing of `MCPClientManager.call_tool`: first text
block wins; empty content or no text block yields `{"success": True}`;
JSON that is not an object makes the `**` merge raise (caught below). -/
def processContent (content : List ContentBlock) : Except String JVal :=
  match firstTextBlock content with
  | some (.textObj fields) => .ok (.obj (fields ++ [("success", .bool true)]))
  | some (.textNonObj e) => .error e
  | some (.textRaw r) => .ok (.obj [("success", .bool true), ("result", .str r)])
  | some .noText => .ok (.obj [("success", .bool true)])
  | none => .ok (.obj [("success", .bool true)])

/-- Embedding of `MCPClientManager.call_tool`: always connects afresh (first event),
never raises — any exception is folded into a `success: False` dict. -/
def call_tool (tool_name : String) (o : MgrOutcome) : JVal × List Event :=
  match o with
  | .connectFail m =>
    (.obj [("success", .bool false), ("error", .str m)], [.connectAttempt])
  | .callRaises m =>
    (.obj [("success", .bool false), ("error", .str m)],
     [.connectAttempt, .remoteCall tool_name])
  | .callReturns content =>
    match processContent content with
    | .ok v => (v, [.connectAttempt, .remoteCall tool_name])
    | .error e =>
      (.obj [("success", .bool false), ("error", .str e)],
       [.connectAttempt, .remoteCall tool_name])

end MCPClientManager

/-!
## Persistence tool wrappers (src/expense_agents/tools.py)

These wrap `mcp_client.call_tool` (the manager above).  The oracle
`WrapOutcome` is what that call does: return a dict, or raise.  Each
wrapper returns the JSON object it would `json.dumps`.
-/

/-- Behaviour of the wrapped `await mcp_client.call_tool(...)`:
a returned result dict, or a raised exception with message `msg`. -/
inductive WrapOutcome where
  | result (r : List (String × JVal))
  | raised (msg : String)

/-- Embedding of `write_range` (src/expense_agents/tools.py, lines 23-76).  The
argument dict sent to the remote call is `{"range": range, "values": values}`. -/
def write_range (range : String) (values : List (List String)) (o : WrapOutcome) : JVal :=
  match o with
  | .raised m => .obj [("success", .bool false), ("error", .str m)]
  | .result r =>
    if truthy (dget r "success") then
      .obj [("success", .bool true), ("range", .str range),
            ("rows_written", .num values.length),
            ("message", .str ("Datos guardados en " ++ range))]
    else
      .obj [("success", .bool false),
            ("error", dgetD r "error" (.str "Error desconocido del servidor MCP"))]

/-- Embedding of `get_ranges` (src/expense_agents/tools.py, lines 79-126).  The
argument dict sent to the remote call is `{"range": ranges}`.  On success
the payload is `result.get("data") or result.get("values") or result`
(Python `or` on truthiness). -/
def get_ranges (ranges : List String) (o : WrapOutcome) : JVal :=
  match o with
  | .raised m => .obj [("success", .bool false), ("error", .str m)]
  | .result r =>
    if truthy (dget r "success") then
      .obj [("success", .bool true),
            ("data", pyOr (dget r "data") (pyOr (dget r "values") (.obj r)))]
    else
      .obj [("success", .bool false),
            ("error", dgetD r "error" (.str "Error desconocido del servidor MCP"))]

/-- Python `len(v)`: defined for strings, lists and dicts; `none` models
the `TypeError` raised on other values. -/
def jLen : JVal → Option Nat
  | .str s => some s.length
  | .arr xs => some xs.length
  | .obj fs => some fs.length
  | _ => none

/-- Python `v[0]`: head of a list, first character of a string, key
lookup `0` on a dict (here always a `KeyError`), `TypeError` otherwise.
The error texts abbreviate the CPython messages; they only feed the
`"error"` field of degenerate-data paths. -/
def jIndex0 : JVal → Except String JVal
  | .arr (h :: _) => .ok h
  | .arr [] => .error "IndexError: list index out of range"
  | .str s =>
    match s.data with
    | c :: _ => .ok (.str (String.mk [c]))
    | [] => .error "IndexError: string index out of range"
  | .obj _ => .error "KeyError: 0"
  | _ => .error "TypeError: object is not subscriptable"

/-- The row-counting block of `get_next_row` (lines 166-189): from the
`data` value, read `ValueRanges`, take element 0, read its `Values`, and
if non-empty set `next_row = len(values) + 1`.  `.error` models an
exception caught by the inner `except`; `.ok none` means `next_row`
stayed `None`. -/
def computeNextRow (data : JVal) : Except String (Option Nat) :=
  match data with
  | .obj fields =>
    let vr := dgetD fields "ValueRanges" (.arr [])
    if truthy vr then
      match jLen vr with
      | none => .error "TypeError: object has no length"
      | some n =>
        if n > 0 then
          match jIndex0 vr with
          | .error e => .error e
          | .ok (.obj f0) =>
            let values := dgetD f0 "Values" (.arr [])
            if truthy values then
              match jLen values with
              | none => .error "TypeError: object has no length"
              | some k => .ok (some (k + 1))
            else .ok none
          | .ok _ => .error "AttributeError: object has no attribute get"
        else .ok none
    else .ok none
  | _ => .ok none

/-- Python `str.split(sep)` for a one-character separator, structurally
on the character list (`"".split` yields `[""]`, i.e. `[[]]`). -/
def splitOnChar (c : Char) : List Char → List (List Char)
  | [] => [[]]
  | x :: xs =>
    let r := splitOnChar c xs
    if x == c then [] :: r
    else
      match r with
      | [] => [[x]]
      | y :: ys => (x :: y) :: ys

/-- Python `str.split(sep)` for a one-character separator, on strings. -/
def pySplit (s : String) (c : Char) : List String :=
  (splitOnChar c s.data).map (fun cs => String.mk cs)

/-- The range-string arithmetic of `get_next_row` (lines 191-202):
split the input range on `!` and `:`, keep the alphabetic column letters,
and splice the locally computed row number in; any unpacking failure
falls back to `Gastos!A{n}:E{n}`. -/
def rangeToWrite (range_to_read : String) (n : Nat) : String :=
  match pySplit range_to_read '!' with
  | [sheet_part, cell_part] =>
    match pySplit cell_part ':' with
    | [start_cell, end_cell] =>
      let start_col := String.mk (start_cell.data.filter Char.isAlpha)
      let end_col := String.mk (end_cell.data.filter Char.isAlpha)
      sheet_part ++ "!" ++ start_col ++ toString n ++ ":" ++ end_col ++ toString n
    | _ => "Gastos!A" ++ toString n ++ ":E" ++ toString n
  | _ => "Gastos!A" ++ toString n ++ ":E" ++ toString n

/-- A run of `get_next_row`: the single remote request it issues
(tool name and argument dict) and the JSON object it returns. -/
structure GetNextRowRun where
  request : String × JVal
  output : JVal

/-- Embedding of `get_next_row` (src/expense_agents/tools.py, lines 129-216).  The one
remote operation invoked is a plain `get_ranges` read; the next row is
then computed locally as `len(values) + 1` and the write range is built
locally from the input range string. -/
def get_next_row (range_to_read : String) (o : WrapOutcome) : GetNextRowRun :=
  let request : String × JVal :=
    ("get_ranges", .obj [("range", .arr [.str range_to_read])])
  match o with
  | .raised m => ⟨request, .obj [("success", .bool false), ("error", .str m)]⟩
  | .result r =>
    if !truthy (dget r "success") then
      ⟨request, .obj [("success", .bool false),
                      ("error", dgetD r "error" (.str "Error reading sheet data"))]⟩
    else
      let data := pyOr (dget r "data") (.obj r)
      match computeNextRow data with
      | .error e =>
        ⟨request, .obj [("success", .bool false),
                        ("error", .str ("Could not calculate next row: " ++ e))]⟩
      | .ok none =>
        ⟨request, .obj [("success", .bool false),
                        ("error", .str "Could not determine next row number")]⟩
      | .ok (some n) =>
        ⟨request, .obj [("success", .bool true), ("next_row", .num n),
                        ("range_to_write", .str (rangeToWrite range_to_read n)),
                        ("message", .str ("Next available row is " ++ toString n))]⟩

/-!
## Orchestrator result mapping (src/expense_agents/orchestrator.py)

`process_receipt_with_agents` builds a message, constructs the
orchestrator (which raises `RuntimeError` when an LLM provider has no
API key — this happens before the `try` block), runs `Runner.run` once,
and maps the structured `OrchestratorResult` to a
`ProcessReceiptResponse`.

`OrchestratorResult` is not declared in the schema module of the repository;
its shape is reconstructed from the documented output schema in
`src/expense_agents/prompts.py` (lines 211-240) and the attribute
accesses in `orchestrator.py`: `success` (bool), `expense_data`
(object or null, with fields fecha/tipo/categoria/importe/descripcion),
`error_message` (string or null), `sheet_row` (string or null).
-/

/-- The expense payload of the structured orchestrator output, per the
schema documented in src/expense_agents/prompts.py. -/
structure ExpenseData where
  fecha : String
  tipo : String
  categoria : String
  importe : String
  descripcion : String
deriving DecidableEq

/-- The structured orchestrator output (see module comment above). -/
structure OrchestratorResult where
  success : Bool
  expense_data : Option ExpenseData
  error_message : Option String
  sheet_row : Option String
deriving DecidableEq

/-- Status enum `ProcessingStatus` (src/models/schemas.py, lines 30-37). -/
inductive ProcessingStatus where
  | success
  | validation_failed
  | categorization_failed
  | mcp_error
  | error
deriving DecidableEq

/-- Response model `ProcessReceiptResponse` (src/models/schemas.py, lines 59-75); the
`data` payload is the dumped expense dict, modelled structurally. -/
structure ProcessReceiptResponse where
  status : ProcessingStatus
  message : String
  data : Option ExpenseData
  attempts : Nat
  errors : List String
deriving DecidableEq

/-- What `await Runner.run(orchestrator, message)` does.  The control
loop lives inside the external agents SDK; the repository only sees
`result.final_output` (possibly `None`).  `toolRequests` records the
tool invocations the backend requested during the run, in order — the
mapping below provably never looks at it. -/
inductive RunOutcome where
  | raised (msg : String)
  | finished (final_output : Option OrchestratorResult) (toolRequests : List String)

/-- Python `a or default` for an optional string: `None` and `""` are
falsy. -/
def pyOrStr (a : Option String) (dflt : String) : String :=
  match a with
  | some s => if s != "" then s else dflt
  | none => dflt

/-- Lines 250-311 of src/expense_agents/orchestrator.py: map the run
outcome to the terminal `ProcessReceiptResponse`.  Every path hardcodes
`attempts=1`; the only statuses produced are `SUCCESS` and `ERROR`. -/
def buildResponse : RunOutcome → ProcessReceiptResponse
  | .raised m =>
    ⟨.error, "Error interno: " ++ m, none, 1, [m]⟩
  | .finished none _ =>
    ⟨.error, "El orquestador no devolvió respuesta", none, 1,
     ["No output from orchestrator"]⟩
  | .finished (some r) _ =>
    if r.success then
      let message :=
        match r.sheet_row, r.expense_data with
        | some row, some ed =>
          if row != "" then
            "Gasto guardado exitosamente en " ++ row ++ ": " ++ ed.descripcion ++
              " - " ++ ed.importe ++ "€ (" ++ ed.categoria ++ ")"
          else "Gasto procesado exitosamente"
        | _, _ => "Gasto procesado exitosamente"
      ⟨.success, message, r.expense_data, 1, []⟩
    else
      let error_msg := pyOrStr r.error_message "Error desconocido en el procesamiento"
      ⟨.error, error_msg, none, 1, [error_msg]⟩

/-- Embedding of `process_receipt_with_agents` (src/expense_agents/orchestrator.py,
lines 210-311).  `creation` is the outcome of
`create_expense_orchestrator()` — called before the `try` block, it
raises `RuntimeError` when a provider has no API key, and that
exception propagates to the caller (`Except.error`).  Only when creation
succeeds is the run outcome mapped to a structured response. -/
def process_receipt_with_agents (creation : Except String Unit) (run : RunOutcome) :
    Except String ProcessReceiptResponse :=
  match creation with
  | .error m => .error m
  | .ok _ => .ok (buildResponse run)

/-- Default `OrchestratorSettings.max_correction_attempts`
(src/core/configs.py, lines 84-86).  Exposed by the status endpoint in
src/main.py but never read by any workflow code. -/
def max_correction_attempts_default : Nat := 3

/-!
## Expense format validation (src/agents/tools.py)

`validate_expense` first runs `_validate_format`; only when that returns
no errors does it consult the AI validator.  Dates are handled with
`datetime.strptime(fecha, "%d/%m/%Y")` and compared against
`date.today()` and `today - timedelta(days=365)`.

Dates are modelled by their proleptic-Gregorian day number (`toDays`,
the standard days-from-civil algorithm).  Python `date` comparison and
`timedelta` arithmetic are order-isomorphic to this day numbering, so
`date.today()` enters the model directly as its day number `todayO`.
-/

/-- Valid movement types of the format validator. -/
def validTypes : List String := ["Gasto", "Ingreso"]

/-- Valid categories of the format validator. -/
def validCategories : List String :=
  ["Alimentación", "Transporte", "Ocio", "Hogar", "Ropa",
   "Inversiones", "Suscripciones", "Otros", "Ahorros"]

/-- Gregorian leap year, as used by `datetime`. -/
def isLeapYear (y : Int) : Bool :=
  y % 4 == 0 && (y % 100 != 0 || y % 400 == 0)

/-- Length of a month in the proleptic Gregorian calendar. -/
def daysInMonth (y : Int) (m : Nat) : Nat :=
  if m == 2 then (if isLeapYear y then 29 else 28)
  else if m == 4 || m == 6 || m == 9 || m == 11 then 30
  else 31

/-- The numeric value of a non-empty all-digit character sequence. -/
def digitsToNat? (cs : List Char) : Option Nat :=
  if cs.isEmpty then none
  else if cs.all (fun c => c.isDigit) then
    some (cs.foldl (fun a c => a * 10 + (c.toNat - 48)) 0)
  else none

/-- Embedding of the strptime call with format %d/%m/%Y: day and month are one
or two digits in range, the year exactly four digits, nothing left over,
and the day must exist in the month (else `ValueError`).  Returns
`(day, month, year)`. -/
def parseFecha (s : String) : Option (Nat × Nat × Int) :=
  match splitOnChar '/' s.data with
  | [ds, ms, ys] =>
    match digitsToNat? ds, digitsToNat? ms, digitsToNat? ys with
    | some d, some m, some y =>
      if ds.length ≤ 2 ∧ ms.length ≤ 2 ∧ ys.length = 4 ∧
         1 ≤ d ∧ d ≤ 31 ∧ 1 ≤ m ∧ m ≤ 12 ∧ 1 ≤ y ∧
         d ≤ daysInMonth (y : Int) m
      then some (d, m, (y : Int)) else none
    | _, _, _ => none
  | _ => none

/-- Day number of a proleptic-Gregorian date (days-from-civil); strictly
monotone in the date, which is all the comparisons below rely on.  For
the years `datetime` admits (1..9999) every division below is on
non-negative operands. -/
def toDays (y : Int) (m d : Nat) : Int :=
  let yAdj : Int := if m ≤ 2 then y - 1 else y
  let era : Int := (if 0 ≤ yAdj then yAdj else yAdj - 399) / 400
  let yoe : Int := yAdj - era * 400
  let mp : Int := if 2 < m then (m : Int) - 3 else (m : Int) + 9
  let doy : Int := (153 * mp + 2) / 5 + (d : Int) - 1
  let doe : Int := yoe * 365 + yoe / 4 - yoe / 100 + doy
  era * 146097 + doe - 719468

/-- Full match of `\d+,\d{minD,maxD}` against a character list. -/
def reImporteCore (minD maxD : Nat) (cs : List Char) : Bool :=
  let intPart := cs.takeWhile Char.isDigit
  match cs.drop intPart.length with
  | ',' :: frac =>
    !intPart.isEmpty && frac.all Char.isDigit &&
      decide (minD ≤ frac.length) && decide (frac.length ≤ maxD)
  | _ => false

/-- Anchored regex match of digits, comma, then minD to maxD digits, as
re.match performs it; the dollar anchor of Python also accepts a single
trailing newline. -/
def reMatchImporte (minD maxD : Nat) (s : String) : Bool :=
  reImporteCore minD maxD s.data ||
    (match s.data.getLast? with
     | some c => c == '\n' && reImporteCore minD maxD s.data.dropLast
     | none => false)

/-- Embedding of `_validate_format` (src/agents/tools.py, lines 125-168): date format
and window, type, category and amount-format checks, errors accumulated
in source order.  `todayO` is `date.today()` as a day number. -/
def validate_format (fecha tipo categoria importe : String) (todayO : Int) :
    List String :=
  let dateErrors :=
    match parseFecha fecha with
    | some (d, m, y) =>
      let p := toDays y m d
      (if todayO < p then ["La fecha (" ++ fecha ++ ") no puede ser futura"] else []) ++
        (if p < todayO - 365 then ["La fecha (" ++ fecha ++ ") es de hace más de un año"] else [])
    | none => ["Formato de fecha inválido: " ++ fecha ++ ". Debe ser DD/MM/YYYY"]
  let tipoErrors :=
    if validTypes.contains tipo then []
    else ["Tipo inválido: " ++ tipo ++ ". Debe ser \x27Gasto\x27 o \x27Ingreso\x27"]
  let catErrors :=
    if validCategories.contains categoria then []
    else ["Categoría inválida: " ++ categoria ++ ". Categorías válidas: " ++
            String.intercalate ", " validCategories]
  let impErrors :=
    if !reMatchImporte 2 2 importe then
      if !reMatchImporte 1 2 importe then
        ["Formato de importe inválido: " ++ importe ++ ". Debe usar coma decimal (ej: 362,67)"]
      else []
    else []
  dateErrors ++ tipoErrors ++ catErrors ++ impErrors

/-- What the AI-validation branch of `validate_expense` does once the
format checks pass: the validator model is unavailable (skip, accept),
or the validator run returns a response whose parsed dict is `parsed`,
or the run raises (fall back to accepting the expense). -/
inductive AiOutcome where
  | modelUnavailable
  | validatorResult (parsed : List (String × JVal))
  | raised (msg : String)

/-- Embedding of `validate_expense` (src/agents/tools.py, lines 27-122): returns the
JSON object it would `json.dumps`.  Non-empty format errors short-circuit
with `is_valid: False` and the joined feedback, before any AI call. -/
def validate_expense (fecha tipo categoria importe descripcion : String)
    (todayO : Int) (ai : AiOutcome) : JVal :=
  let format_errors := validate_format fecha tipo categoria importe todayO
  if !format_errors.isEmpty then
    .obj [("is_valid", .bool false),
          ("feedback", .str (String.intercalate "; " format_errors)),
          ("corrected_category", .null), ("corrected_type", .null)]
  else
    match ai with
    | .modelUnavailable =>
      .obj [("is_valid", .bool true), ("feedback", .null),
            ("corrected_category", .null), ("corrected_type", .null)]
    | .validatorResult parsed => .obj parsed
    | .raised m =>
      .obj [("is_valid", .bool true),
            ("feedback", .str ("Validación AI no disponible: " ++ m)),
            ("corrected_category", .null), ("corrected_type", .null)]

/-!
## Observation helpers and concrete scenario inputs
-/

/-- Field lookup on a JSON object value (observation helper for stating
properties about returned JSON objects). -/
def objGet (v : JVal) (k : String) : JVal :=
  match v with
  | .obj fs => dget fs k
  | _ => .null

/-- Reachability invariant of `MCPClientState`: whenever no session is
held, the tool table is empty. -/
def sessionToolsInv (s : MCPClientState) : Prop :=
  s.session = none → s.tools = []

/-- One spreadsheet data row, as returned inside `Values`. -/
def sheetRow : JVal := .arr [.str "x"]

/-- A successful `get_ranges` reply whose single value range holds `n`
data rows, shaped as the .NET MCP server returns it
(`ValueRanges[0].Values`). -/
def sheetReply (n : Nat) : WrapOutcome :=
  .result [("success", .bool true),
           ("data", .obj [("ValueRanges",
             .arr [.obj [("Values", .arr (List.replicate n sheetRow))]])])]

/-- A connected session that discovered the two spreadsheet tools. -/
def c7state : MCPClientState := ⟨some (), ["write_range", "get_ranges"], true⟩

/-- A run in which the model backend requested the classification tool
four times in a row and the orchestrator finally reported failure
(scenario C of the spec, with `max-attempts = 3`). -/
def c3run : RunOutcome :=
  .finished (some ⟨false, none, some "La validación siguió fallando", none⟩)
    ["categorize_expense", "categorize_expense", "categorize_expense", "categorize_expense"]

/-- A remote reply reporting failure with an empty error text, as the
manager produces when the underlying exception stringifies to `""`. -/
def c9reply : WrapOutcome := .result [("success", .bool false), ("error", .str "")]

/-- A sample expense payload. -/
def edSample : ExpenseData := ⟨"05/11/2025", "Gasto", "Otros", "12,34", "MERCADONA"⟩

/-!
## Helper lemmas
-/

theorem str_append_ne_empty_left (a b : String) (h : a.length ≠ 0) : a ++ b ≠ "" := by
  intro hc
  have h2 := congrArg String.length hc
  rw [String.length_append] at h2
  have h3 : ("" : String).length = 0 := rfl
  rw [h3] at h2
  omega

theorem intercalate_go_length (s : String) : ∀ (l : List String) (acc : String),
    acc.length ≤ (String.intercalate.go acc s l).length := by
  intro l
  induction l with
  | nil => intro acc; simp [String.intercalate.go]
  | cons a as ih =>
    intro acc
    calc acc.length ≤ (acc ++ s ++ a).length := by
          rw [String.length_append, String.length_append]; omega
      _ ≤ _ := ih (acc ++ s ++ a)

theorem intercalate_cons_ne_empty (s a : String) (as : List String) (h : a.length ≠ 0) :
    String.intercalate s (a :: as) ≠ "" := by
  intro hc
  have h1 : a.length ≤ (String.intercalate s (a :: as)).length :=
    intercalate_go_length s as a
  rw [hc] at h1
  have h3 : ("" : String).length = 0 := rfl
  rw [h3] at h1
  omega

theorem connectAux_inv (d : ℚ) (l : List MCPClient.ConnectAttempt) :
    ∀ s : MCPClientState, sessionToolsInv s →
      sessionToolsInv (MCPClient.connectAux d s l).state := by
  induction l with
  | nil =>
    intro s hs
    exact fun h => hs h
  | cons a rest ih =>
    intro s hs
    cases a with
    | ok ts =>
      intro h
      simp [MCPClient.connectAux] at h
    | failEarly =>
      exact ih s hs
    | failLate =>
      exact ih { s with session := some () } (fun h => by simp at h)

theorem clientStep_inv (s : MCPClientState) (op : ClientOp)
    (hs : sessionToolsInv s) : sessionToolsInv (clientStep s op) := by
  cases op with
  | connect n d o => exact connectAux_inv d _ s hs
  | callTool name remote => exact hs
  | disconnect =>
    unfold clientStep MCPClient.disconnect
    by_cases h : s.session.isSome
    · simp [h]
      intro; rfl
    · simp [h]
      exact hs

theorem clientRun_inv (ops : List ClientOp) :
    ∀ s : MCPClientState, sessionToolsInv s → sessionToolsInv (clientRun s ops) := by
  induction ops with
  | nil => intro s hs; exact hs
  | cons op rest ih =>
    intro s hs
    exact ih (clientStep s op) (clientStep_inv s op hs)

theorem connectAux_nil (d : ℚ) (s : MCPClientState) :
    MCPClient.connectAux d s [] = ⟨{ s with connected := false }, false, []⟩ := rfl

theorem connectAux_ok (d : ℚ) (s : MCPClientState) (ts : List String)
    (rest : List MCPClient.ConnectAttempt) :
    MCPClient.connectAux d s (.ok ts :: rest) = ⟨⟨some (), ts, true⟩, true, []⟩ := rfl

theorem connectAux_failEarly (d : ℚ) (s : MCPClientState)
    (rest : List MCPClient.ConnectAttempt) :
    MCPClient.connectAux d s (.failEarly :: rest) =
      ⟨(MCPClient.connectAux d s rest).state, (MCPClient.connectAux d s rest).result,
       if rest.isEmpty then (MCPClient.connectAux d s rest).sleeps
       else d :: (MCPClient.connectAux d s rest).sleeps⟩ := rfl

theorem connectAux_failLate (d : ℚ) (s : MCPClientState)
    (rest : List MCPClient.ConnectAttempt) :
    MCPClient.connectAux d s (.failLate :: rest) =
      ⟨(MCPClient.connectAux d { s with session := some () } rest).state,
       (MCPClient.connectAux d { s with session := some () } rest).result,
       if rest.isEmpty then (MCPClient.connectAux d { s with session := some () } rest).sleeps
       else d :: (MCPClient.connectAux d { s with session := some () } rest).sleeps⟩ := rfl

theorem connectAux_sleeps_bound (d : ℚ) (l : List MCPClient.ConnectAttempt) :
    ∀ s : MCPClientState,
      (MCPClient.connectAux d s l).sleeps.length ≤ l.length - 1 ∧
      ∀ x ∈ (MCPClient.connectAux d s l).sleeps, x = d := by
  induction l with
  | nil => intro s; simp [connectAux_nil]
  | cons a rest ih =>
    intro s
    cases a with
    | ok ts => simp [connectAux_ok]
    | failEarly =>
      cases rest with
      | nil => simp [connectAux_failEarly, connectAux_nil]
      | cons b bs =>
        rcases ih s with ⟨hlen, hmem⟩
        rw [connectAux_failEarly]
        simp only [List.isEmpty_cons, Bool.false_eq_true, if_false]
        constructor
        · simp only [List.length_cons]
          simp only [List.length_cons] at hlen
          omega
        · intro x hx
          rcases List.mem_cons.mp hx with h | h
          · exact h
          · exact hmem x h
    | failLate =>
      cases rest with
      | nil => simp [connectAux_failLate, connectAux_nil]
      | cons b bs =>
        rcases ih { s with session := some () } with ⟨hlen, hmem⟩
        rw [connectAux_failLate]
        simp only [List.isEmpty_cons, Bool.false_eq_true, if_false]
        constructor
        · simp only [List.length_cons]
          simp only [List.length_cons] at hlen
          omega
        · intro x hx
          rcases List.mem_cons.mp hx with h | h
          · exact h
          · exact hmem x h

theorem connectAux_all_fail (d : ℚ) (l : List MCPClient.ConnectAttempt)
    (hl : ∀ a ∈ l, a.isFail = true) :
    ∀ s : MCPClientState,
      (MCPClient.connectAux d s l).result = false ∧
      (MCPClient.connectAux d s l).sleeps = List.replicate (l.length - 1) d := by
  induction l with
  | nil => intro s; simp [connectAux_nil]
  | cons a rest ih =>
    intro s
    have ha : a.isFail = true := hl a (List.mem_cons_self a rest)
    have hrest : ∀ b ∈ rest, b.isFail = true := fun b hb => hl b (List.mem_cons_of_mem a hb)
    cases a with
    | ok ts => simp [MCPClient.ConnectAttempt.isFail] at ha
    | failEarly =>
      cases rest with
      | nil => simp [connectAux_failEarly, connectAux_nil]
      | cons b bs =>
        rcases ih hrest s with ⟨hres, hsl⟩
        rw [connectAux_failEarly]
        simp only [List.isEmpty_cons, Bool.false_eq_true, if_false]
        refine ⟨hres, ?_⟩
        rw [hsl]
        simp only [List.length_cons]
        have h2 : bs.length + 1 + 1 - 1 = (bs.length + 1 - 1) + 1 := by omega
        rw [h2, List.replicate_succ]
    | failLate =>
      cases rest with
      | nil => simp [connectAux_failLate, connectAux_nil]
      | cons b bs =>
        rcases ih hrest { s with session := some () } with ⟨hres, hsl⟩
        rw [connectAux_failLate]
        simp only [List.isEmpty_cons, Bool.false_eq_true, if_false]
        refine ⟨hres, ?_⟩
        rw [hsl]
        simp only [List.length_cons]
        have h2 : bs.length + 1 + 1 - 1 = (bs.length + 1 - 1) + 1 := by omega
        rw [h2, List.replicate_succ]

/-!
## Claims C4-C7: the remote tool session
-/

/-- Claim C4, counterexample: a `Call` made while the session is not
`Ready` (here: the freshly initialised, never-connected client) does not
attempt any reconnection — `MCPClient.call_tool` raises
`RuntimeError("Not connected to MCP server")` immediately, with an empty
action trace (no connect attempt, no remote traffic). -/
theorem C4_counterexample :
    MCPClient.call_tool initialMCPClientState "write_range"
        (.raises "unreachable") =
      (.error "Not connected to MCP server", []) := rfl

/-- Claim C4, amended: `MCPClient.call_tool` on a non-ready session
fails immediately by raising, performing no reconnection attempt; the
manager singleton method `call_tool` never consults session state at all — it
performs exactly one fresh connection attempt per call (its first
observable action) and, when that attempt fails, returns (not raises) a
`success: False` dict. -/
theorem C4_not_ready_behaviour :
    (∀ (s : MCPClientState) (name : String) (remote : MCPClient.RemoteCall),
      MCPClient.is_connected s = false →
        MCPClient.call_tool s name remote = (.error "Not connected to MCP server", [])) ∧
    (∀ (name : String) (o : MCPClientManager.MgrOutcome),
      (MCPClientManager.call_tool name o).2.head? = some .connectAttempt ∧
      ∀ m, o = .connectFail m →
        MCPClientManager.call_tool name o =
          (.obj [("success", .bool false), ("error", .str m)], [.connectAttempt])) := by
  constructor
  · intro s name remote h
    simp [MCPClient.call_tool, h]
  · intro name o
    constructor
    · cases o with
      | connectFail m => rfl
      | callRaises m => rfl
      | callReturns c =>
        cases h : MCPClientManager.processContent c with
        | ok v => simp [MCPClientManager.call_tool, h]
        | error e => simp [MCPClientManager.call_tool, h]
    · intro m hm
      subst hm
      rfl

/-- Claim C4, witness: the amended theorem applied at the never-connected
state and at a failing fresh connection. -/
theorem C4_witness :
    MCPClient.call_tool initialMCPClientState "get_ranges" (.raises "x") =
      (.error "Not connected to MCP server", []) ∧
    MCPClientManager.call_tool "get_ranges" (.connectFail "connection refused") =
      (.obj [("success", .bool false), ("error", .str "connection refused")],
       [.connectAttempt]) :=
  ⟨C4_not_ready_behaviour.1 initialMCPClientState "get_ranges" (.raises "x") rfl,
   (C4_not_ready_behaviour.2 "get_ranges" (.connectFail "connection refused")).2
     "connection refused" rfl⟩

/-- Claim C5, counterexample: with the default configuration
(`retry_attempts = 3`, `retry_delay = 1`) and every attempt failing,
`MCPClient.connect` sleeps `[1, 1]` — a constant delay.  The claimed
linear backoff (wait before attempt `k` is `k` times the base delay)
would produce `[1, 2]`. -/
theorem C5_counterexample :
    (MCPClient.connect initialMCPClientState 3 1 (fun _ => .failEarly)).sleeps = [1, 1] ∧
    (MCPClient.connect initialMCPClientState 3 1 (fun _ => .failEarly)).sleeps ≠ [1, 2] ∧
    (MCPClient.connect initialMCPClientState 3 1 (fun _ => .failEarly)).result = false := by
  refine ⟨rfl, ?_, rfl⟩
  intro h
  have h2 : ([1, 1] : List ℚ) = [1, 2] := by
    have h1 : (MCPClient.connect initialMCPClientState 3 1 (fun _ => .failEarly)).sleeps
        = [1, 1] := rfl
    rw [← h1]; exact h
  have h3 : (1 : ℚ) = 2 := by
    injection h2 with _ h4
    injection h4
  norm_num at h3

/-- Claim C5, amended: `MCPClient.connect` performs at most
`retry_attempts` connection attempts; every delay inserted between
consecutive attempts equals the constant `retry_delay` (not a delay
growing with the attempt index); and when every attempt fails it returns
`False` to the caller after sleeping exactly `retry_attempts - 1` times. -/
theorem C5_bounded_constant_delay (s : MCPClientState) (retry_attempts : Nat)
    (retry_delay : ℚ) (o : Nat → MCPClient.ConnectAttempt) :
    (MCPClient.connect s retry_attempts retry_delay o).sleeps.length ≤ retry_attempts - 1 ∧
    (∀ x ∈ (MCPClient.connect s retry_attempts retry_delay o).sleeps, x = retry_delay) ∧
    ((∀ i, i < retry_attempts → (o i).isFail = true) →
      (MCPClient.connect s retry_attempts retry_delay o).result = false ∧
      (MCPClient.connect s retry_attempts retry_delay o).sleeps =
        List.replicate (retry_attempts - 1) retry_delay) := by
  have hlen : ((List.range retry_attempts).map o).length = retry_attempts := by
    simp
  rcases connectAux_sleeps_bound retry_delay ((List.range retry_attempts).map o) s with
    ⟨hb, hm⟩
  refine ⟨?_, ?_, ?_⟩
  · unfold MCPClient.connect
    rw [hlen] at hb
    exact hb
  · intro x hx
    exact hm x hx
  · intro hfail
    have hl : ∀ a ∈ (List.range retry_attempts).map o, a.isFail = true := by
      intro a haIn
      rcases List.mem_map.mp haIn with ⟨i, hi, rfl⟩
      exact hfail i (List.mem_range.mp hi)
    rcases connectAux_all_fail retry_delay ((List.range retry_attempts).map o) hl s with
      ⟨hres, hsl⟩
    unfold MCPClient.connect
    rw [hlen] at hsl
    exact ⟨hres, hsl⟩

/-- Claim C5, witness: the amended theorem at the default configuration
with all three attempts failing. -/
theorem C5_witness :
    (MCPClient.connect initialMCPClientState 3 1 (fun _ => .failEarly)).result = false ∧
    (MCPClient.connect initialMCPClientState 3 1 (fun _ => .failEarly)).sleeps =
      List.replicate 2 1 :=
  (C5_bounded_constant_delay initialMCPClientState 3 1 (fun _ => .failEarly)).2.2
    (fun _ _ => rfl)

/-- Claim C6 (confirmed): on every reachable session state, `Stop()`
(`disconnect`) is idempotent and raises nothing — calling it twice in a
row equals calling it once, and after it `AvailableTools()` returns the
empty list; on a never-connected session `AvailableTools()` likewise
returns the empty list rather than an error. -/
theorem C6_stop_idempotent (ops : List ClientOp) :
    MCPClient.disconnect (MCPClient.disconnect (clientRun initialMCPClientState ops)) =
      MCPClient.disconnect (clientRun initialMCPClientState ops) ∧
    MCPClient.available_tools
      (MCPClient.disconnect (MCPClient.disconnect (clientRun initialMCPClientState ops))) = [] ∧
    MCPClient.available_tools
      (MCPClient.disconnect (clientRun initialMCPClientState ops)) = [] ∧
    MCPClient.available_tools initialMCPClientState = [] := by
  have hinv : sessionToolsInv (clientRun initialMCPClientState ops) :=
    clientRun_inv ops initialMCPClientState (fun _ => rfl)
  rcases hsess : (clientRun initialMCPClientState ops).session with _ | u
  · have hd : MCPClient.disconnect (clientRun initialMCPClientState ops) =
        clientRun initialMCPClientState ops := by
      simp [MCPClient.disconnect, hsess]
    have htools := hinv hsess
    refine ⟨?_, ?_, ?_, rfl⟩
    · rw [hd]
      exact hd
    · rw [hd, hd]
      exact htools
    · rw [hd]
      exact htools
  · have hd : MCPClient.disconnect (clientRun initialMCPClientState ops) =
        ⟨none, [], false⟩ := by
      simp [MCPClient.disconnect, hsess]
    rw [hd]
    exact ⟨rfl, rfl, rfl, rfl⟩

/-- Claim C7, counterexample: dispatching an operation name unknown to
the connected session does not return an error value — it raises a
`RuntimeError` (propagated to the caller), and the message carries only
the remote tool names (there is no local table to union in). -/
theorem C7_counterexample :
    MCPClient.call_tool c7state "frobnicate" (.raises "never reached") =
      (.error "Tool \x27frobnicate\x27 not found. Available: [\x27write_range\x27, \x27get_ranges\x27]",
       []) := rfl

/-- Claim C7, amended: for a connected session and a tool name absent
from the remote table, `MCPClient.call_tool` raises (does not return) a
`RuntimeError` whose message carries the list of currently known remote
tool names; no remote traffic happens. -/
theorem C7_unknown_tool_raises (s : MCPClientState) (name : String)
    (remote : MCPClient.RemoteCall)
    (hconn : MCPClient.is_connected s = true)
    (habs : s.tools.contains name = false) :
    MCPClient.call_tool s name remote =
      (.error (MCPClient.unknownToolMsg name s.tools), []) := by
  unfold MCPClient.call_tool
  rw [hconn, habs]
  simp

/-- Claim C7, witness: the amended theorem applied at the connected
two-tool state and an unknown name. -/
theorem C7_witness :
    MCPClient.call_tool c7state "add_expense" (.raises "x") =
      (.error (MCPClient.unknownToolMsg "add_expense" ["write_range", "get_ranges"]), []) :=
  C7_unknown_tool_raises c7state "add_expense" (.raises "x") rfl rfl

/-!
## Claims C2, C3, C8: the terminal result mapping
-/

/-- Claim C2, counterexample: when the orchestrator reports
`success: true` without any expense payload, the mapped response has
`status = SUCCESS` with an absent payload — violating "`Success` implies
payload present". -/
theorem C2_counterexample :
    (buildResponse (.finished (some ⟨true, none, none, none⟩) [])).status =
      ProcessingStatus.success ∧
    (buildResponse (.finished (some ⟨true, none, none, none⟩) [])).data = none :=
  ⟨rfl, rfl⟩

/-- Claim C2, amended: any status other than `Success` implies the
payload is absent; `Success` is reported iff the orchestrator reported
success, and then the payload equals the orchestrator field `expense_data` —
which is absent exactly when the orchestrator reported success without
expense data (no "partial" marking exists). -/
theorem C2_payload_mapping :
    (∀ out : RunOutcome,
      (buildResponse out).status ≠ ProcessingStatus.success →
        (buildResponse out).data = none) ∧
    (∀ (r : OrchestratorResult) (tr : List String),
      ((buildResponse (.finished (some r) tr)).status = ProcessingStatus.success ↔
        r.success = true) ∧
      (r.success = true →
        (buildResponse (.finished (some r) tr)).data = r.expense_data)) := by
  constructor
  · intro out
    cases out with
    | raised m => intro _; rfl
    | finished fo tr =>
      cases fo with
      | none => intro _; rfl
      | some r =>
        cases hs : r.success with
        | true =>
          intro hne
          exfalso
          apply hne
          simp [buildResponse, hs]
        | false =>
          intro _
          simp [buildResponse, hs]
  · intro r tr
    cases hs : r.success with
    | true =>
      constructor
      · constructor
        · intro _; rfl
        · intro _; simp [buildResponse, hs]
      · intro _; simp [buildResponse, hs]
    | false =>
      constructor
      · constructor
        · intro h
          simp [buildResponse, hs] at h
        · intro h
          cases h
      · intro h
        cases h

/-- Claim C2, witness: the amended theorem applied at an error outcome
and at a successful outcome carrying expense data. -/
theorem C2_witness :
    (buildResponse (.raised "boom")).data = none ∧
    (buildResponse
        (.finished (some ⟨true, some edSample, none, some "Gastos!A55:E55"⟩) [])).data =
      some edSample := by
  constructor
  · exact C2_payload_mapping.1 (.raised "boom") (by decide)
  · exact (C2_payload_mapping.2 ⟨true, some edSample, none, some "Gastos!A55:E55"⟩ []).2 rfl

/-- Claim C3, counterexample: scenario C — the backend requests
classification four times with the configured maximum at its default 3;
the workflow of the repository nevertheless terminates with status `ERROR`
(not `ClassificationFailed`) and reports `attempts = 1`, not the
configured maximum. -/
theorem C3_counterexample :
    (buildResponse c3run).status = ProcessingStatus.error ∧
    (buildResponse c3run).status ≠ ProcessingStatus.categorization_failed ∧
    (buildResponse c3run).attempts = 1 ∧
    max_correction_attempts_default = 3 ∧
    (buildResponse c3run).attempts ≠ max_correction_attempts_default := by
  refine ⟨rfl, by decide, rfl, rfl, by decide⟩

/-- Claim C3, amended: the workflow enforces no classification-attempt
ceiling of its own — the loop is delegated to the external agents
runtime, `max_correction_attempts` is never consulted, and every
terminal response reports `attempts = 1` and a status that is `SUCCESS`
or `ERROR`, never `CATEGORIZATION_FAILED`, regardless of how many
classification requests the backend made. -/
theorem C3_no_attempt_ceiling (out : RunOutcome) :
    (buildResponse out).attempts = 1 ∧
    (buildResponse out).status ≠ ProcessingStatus.categorization_failed ∧
    ((buildResponse out).status = ProcessingStatus.success ∨
      (buildResponse out).status = ProcessingStatus.error) := by
  cases out with
  | raised m =>
    exact ⟨rfl, fun h => ProcessingStatus.noConfusion h, Or.inr rfl⟩
  | finished fo tr =>
    cases fo with
    | none => exact ⟨rfl, fun h => ProcessingStatus.noConfusion h, Or.inr rfl⟩
    | some r =>
      cases hs : r.success with
      | true =>
        refine ⟨?_, ?_, Or.inl ?_⟩ <;> simp [buildResponse, hs]
      | false =>
        refine ⟨?_, ?_, Or.inr ?_⟩ <;> simp [buildResponse, hs]

/-- Claim C8, counterexample: a terminal path that leaves the caller
without any structured status — when orchestrator construction fails
(an LLM provider without an API key), `process_receipt_with_agents`
propagates the `RuntimeError` instead of returning a response, because
`create_expense_orchestrator()` runs before the `try` block. -/
theorem C8_counterexample :
    process_receipt_with_agents
        (.error "Could not create model for categorizer provider: openai. Check that the API key is configured.")
        (.finished none []) =
      .error "Could not create model for categorizer provider: openai. Check that the API key is configured." :=
  rfl

/-- Claim C8, amended: once orchestrator construction succeeds, every
terminal path returns a structured response with an explicit status and
a non-empty human-readable message, and any status other than `Success`
comes with a non-empty error list; only construction failure escapes as
an exception. -/
theorem C8_structured_after_creation (run : RunOutcome) :
    process_receipt_with_agents (.ok ()) run = .ok (buildResponse run) ∧
    (buildResponse run).message ≠ "" ∧
    ((buildResponse run).status ≠ ProcessingStatus.success →
      (buildResponse run).errors ≠ []) := by
  refine ⟨rfl, ?_, ?_⟩
  · cases run with
    | raised m =>
      exact str_append_ne_empty_left "Error interno: " m (by decide)
    | finished fo tr =>
      cases fo with
      | none =>
        exact (by decide : ("El orquestador no devolvió respuesta" : String) ≠ "")
      | some r =>
        obtain ⟨succ, ed, em, row⟩ := r
        cases succ with
        | true =>
          cases row with
          | none =>
            cases ed with
            | none =>
              exact (by decide : ("Gasto procesado exitosamente" : String) ≠ "")
            | some e =>
              exact (by decide : ("Gasto procesado exitosamente" : String) ≠ "")
          | some rw =>
            cases ed with
            | none =>
              exact (by decide : ("Gasto procesado exitosamente" : String) ≠ "")
            | some e =>
              show (if (rw != "") = true then
                  "Gasto guardado exitosamente en " ++ rw ++ ": " ++ e.descripcion ++
                    " - " ++ e.importe ++ "€ (" ++ e.categoria ++ ")"
                else "Gasto procesado exitosamente") ≠ ""
              cases hne : (rw != "") with
              | true =>
                rw [if_pos rfl]
                exact str_append_ne_empty_left "Gasto guardado exitosamente en "
                  _ (by decide)
              | false =>
                rw [if_neg (by simp)]
                decide
        | false =>
          cases em with
          | none =>
            exact (by decide : ("Error desconocido en el procesamiento" : String) ≠ "")
          | some s =>
            show (if (s != "") = true then s
              else "Error desconocido en el procesamiento") ≠ ""
            cases hne : (s != "") with
            | true =>
              rw [if_pos rfl]
              exact bne_iff_ne.mp hne
            | false =>
              rw [if_neg (by simp)]
              decide
  · cases run with
    | raised m =>
      intro _
      exact List.cons_ne_nil m []
    | finished fo tr =>
      cases fo with
      | none =>
        intro _
        exact List.cons_ne_nil _ []
      | some r =>
        cases hs : r.success with
        | true =>
          intro h
          exfalso
          apply h
          simp [buildResponse, hs]
        | false =>
          intro _
          simp [buildResponse, hs]

/-- Claim C8, witness: the amended theorem applied at a failing run
outcome. -/
theorem C8_witness :
    process_receipt_with_agents (.ok ()) (.raised "boom") =
      .ok (buildResponse (.raised "boom")) ∧
    (buildResponse (.raised "boom")).errors ≠ [] :=
  ⟨(C8_structured_after_creation (.raised "boom")).1,
   (C8_structured_after_creation (.raised "boom")).2.2 (by decide)⟩

/-!
## Claims C1, C9: the persistence tool layer
-/

/-- Evaluation lemma: on a successful read whose single value range holds
a non-empty row list, `get_next_row` issues exactly one remote
`get_ranges` read and computes the output locally from the row count. -/
theorem get_next_row_sheetReply (rows : List JVal) (h : rows.isEmpty = false) :
    get_next_row "Gastos!A1:E200" (.result [("success", .bool true),
        ("data", .obj [("ValueRanges", .arr [.obj [("Values", .arr rows)]])])]) =
      ⟨("get_ranges", .obj [("range", .arr [.str "Gastos!A1:E200"])]),
       .obj [("success", .bool true), ("next_row", .num ((rows.length + 1 : Nat) : Int)),
             ("range_to_write", .str ("Gastos" ++ "!" ++ "A" ++ toString (rows.length + 1) ++
               ":" ++ "E" ++ toString (rows.length + 1))),
             ("message", .str ("Next available row is " ++ toString (rows.length + 1)))]⟩ := by
  cases rows with
  | nil => simp at h
  | cons a as => rfl

/-- Claim C1 (the code contradicts it): `get_next_row` derives the row
slot locally.  The only remote operation it invokes is a plain
`get_ranges` read; the next row is then `len(values) + 1`, computed by
counting the rows the read returned (for every count `n+1` the output is
`n+2`), and the write range is produced by splitting the input range
string locally (54 rows in `Gastos!A1:E200` yield `Gastos!A55:E55`).
No remote "find next free row" operation is involved. -/
theorem C1_get_next_row_counts_locally :
    (∀ n : Nat,
      objGet (get_next_row "Gastos!A1:E200" (sheetReply (n + 1))).output "next_row" =
        JVal.num (n + 2)) ∧
    (get_next_row "Gastos!A1:E200" (sheetReply 54)).request =
      ("get_ranges", JVal.obj [("range", JVal.arr [JVal.str "Gastos!A1:E200"])]) ∧
    objGet (get_next_row "Gastos!A1:E200" (sheetReply 54)).output "next_row" =
      JVal.num 55 ∧
    objGet (get_next_row "Gastos!A1:E200" (sheetReply 54)).output "range_to_write" =
      JVal.str "Gastos!A55:E55" ∧
    objGet (get_next_row "Gastos!A1:E200" (sheetReply 10)).output "next_row" =
      JVal.num 11 := by
  refine ⟨?_, rfl, rfl, rfl, rfl⟩
  intro n
  have hne : (List.replicate (n + 1) sheetRow).isEmpty = false := by
    rw [List.replicate_succ]
    rfl
  show objGet (get_next_row "Gastos!A1:E200" (.result [("success", .bool true),
      ("data", .obj [("ValueRanges", .arr [.obj [("Values",
        .arr (List.replicate (n + 1) sheetRow))]])])])).output "next_row" =
    JVal.num (n + 2)
  rw [get_next_row_sheetReply (List.replicate (n + 1) sheetRow) hne]
  show JVal.num (((List.replicate (n + 1) sheetRow).length + 1 : Nat) : Int) =
    JVal.num (n + 2)
  rw [List.length_replicate]
  exact congrArg JVal.num (by push_cast; ring)

/-- Equation lemma: the `result` branch of `write_range`. -/
theorem write_range_result (range : String) (values : List (List String))
    (r : List (String × JVal)) :
    write_range range values (.result r) =
      if truthy (dget r "success") then
        .obj [("success", .bool true), ("range", .str range),
              ("rows_written", .num values.length),
              ("message", .str ("Datos guardados en " ++ range))]
      else
        .obj [("success", .bool false),
              ("error", dgetD r "error" (.str "Error desconocido del servidor MCP"))] := rfl

/-- Equation lemma: the `result` branch of `get_ranges`. -/
theorem get_ranges_result (ranges : List String) (r : List (String × JVal)) :
    get_ranges ranges (.result r) =
      if truthy (dget r "success") then
        .obj [("success", .bool true),
              ("data", pyOr (dget r "data") (pyOr (dget r "values") (.obj r)))]
      else
        .obj [("success", .bool false),
              ("error", dgetD r "error" (.str "Error desconocido del servidor MCP"))] := rfl

/-- Claim C9, counterexample: when the remote call reports failure with
an empty error text (an exception whose `str` is empty), `write_range`
returns `success: False` with an empty — not non-empty — `"error"`
string. -/
theorem C9_counterexample :
    write_range "Gastos!A55:E55" [["05/11/2025", "Gasto", "Otros", "362,67", "IRPF 2024"]]
        c9reply =
      JVal.obj [("success", .bool false), ("error", .str "")] := rfl

/-- Claim C9, amended: `write_range` and `get_ranges` are total and
always return an object whose `"success"` field is a boolean; a raised
exception is caught and returned as `success: False` with the exception
text as the `"error"` value, and a reported failure is returned as
`success: False` with `result.get("error", "Error desconocido del
servidor MCP")` — an error string that is empty exactly when the
reported text is empty. -/
theorem C9_wrappers_total (range : String) (values : List (List String))
    (ranges : List String) (o : WrapOutcome) :
    (∃ b, objGet (write_range range values o) "success" = JVal.bool b) ∧
    (∃ b, objGet (get_ranges ranges o) "success" = JVal.bool b) ∧
    (∀ m, o = .raised m →
      write_range range values o = .obj [("success", .bool false), ("error", .str m)] ∧
      get_ranges ranges o = .obj [("success", .bool false), ("error", .str m)]) ∧
    (∀ r, o = .result r → truthy (dget r "success") = false →
      write_range range values o =
        .obj [("success", .bool false),
              ("error", dgetD r "error" (.str "Error desconocido del servidor MCP"))] ∧
      get_ranges ranges o =
        .obj [("success", .bool false),
              ("error", dgetD r "error" (.str "Error desconocido del servidor MCP"))]) := by
  refine ⟨?_, ?_, ?_, ?_⟩
  · cases o with
    | raised m => exact ⟨false, rfl⟩
    | result r =>
      rw [write_range_result]
      cases h : truthy (dget r "success") with
      | true =>
        rw [if_pos rfl]
        exact ⟨true, rfl⟩
      | false =>
        rw [if_neg (by simp)]
        exact ⟨false, rfl⟩
  · cases o with
    | raised m => exact ⟨false, rfl⟩
    | result r =>
      rw [get_ranges_result]
      cases h : truthy (dget r "success") with
      | true =>
        rw [if_pos rfl]
        exact ⟨true, rfl⟩
      | false =>
        rw [if_neg (by simp)]
        exact ⟨false, rfl⟩
  · intro m hm
    subst hm
    exact ⟨rfl, rfl⟩
  · intro r hr htr
    subst hr
    rw [write_range_result, get_ranges_result, htr, if_neg (by simp), if_neg (by simp)]
    exact ⟨rfl, rfl⟩

/-- Claim C9, witness: the amended theorem applied at a raised exception
and at a reported failure carrying an empty error text. -/
theorem C9_witness :
    write_range "Gastos!A55:E55" [] (.raised "boom") =
      JVal.obj [("success", .bool false), ("error", .str "boom")] ∧
    get_ranges ["Gastos!A1:E100"] c9reply =
      JVal.obj [("success", .bool false), ("error", .str "")] := by
  constructor
  · exact ((C9_wrappers_total "Gastos!A55:E55" [] [] (.raised "boom")).2.2.1 "boom" rfl).1
  · exact ((C9_wrappers_total "x" [] ["Gastos!A1:E100"] c9reply).2.2.2
      [("success", .bool false), ("error", .str "")] rfl (by rfl)).2

/-!
## Claim C10: the expense format validator
-/

theorem str_ne_empty_length (a : String) (h : a ≠ "") : a.length ≠ 0 := by
  intro hc
  apply h
  ext1
  exact List.length_eq_zero.mp hc

theorem mem_ite_nil_right {α : Type} {c : Prop} [Decidable c] {x e : α}
    (h : e ∈ if c then [x] else []) : e = x := by
  split at h
  · simpa using h
  · simp at h

theorem mem_ite_nil_left {α : Type} {c : Prop} [Decidable c] {x e : α}
    (h : e ∈ if c then [] else [x]) : e = x := by
  split at h
  · simp at h
  · simpa using h

/-- Every error message `_validate_format` produces is non-empty (each
one starts with a fixed non-empty prefix). -/
theorem validate_format_elems_ne_empty (fecha tipo categoria importe : String)
    (todayO : Int) :
    ∀ e ∈ validate_format fecha tipo categoria importe todayO, e ≠ "" := by
  intro e he
  simp only [validate_format] at he
  rcases List.mem_append.mp he with h123 | h4
  · rcases List.mem_append.mp h123 with h12 | h3
    · rcases List.mem_append.mp h12 with h1 | h2
      · rcases hp : parseFecha fecha with _ | t
        · simp only [hp] at h1
          have hx := List.mem_singleton.mp h1
          subst hx
          exact str_append_ne_empty_left "Formato de fecha inválido: " _ (by decide)
        · obtain ⟨d, m, y⟩ := t
          simp only [hp] at h1
          rcases List.mem_append.mp h1 with ha | hb
          · have hx := mem_ite_nil_right ha
            subst hx
            exact str_append_ne_empty_left "La fecha (" _ (by decide)
          · have hx := mem_ite_nil_right hb
            subst hx
            exact str_append_ne_empty_left "La fecha (" _ (by decide)
      · have hx := mem_ite_nil_left h2
        subst hx
        exact str_append_ne_empty_left "Tipo inválido: " _ (by decide)
    · have hx := mem_ite_nil_left h3
      subst hx
      exact str_append_ne_empty_left "Categoría inválida: " _ (by decide)
  · split at h4
    · split at h4
      · have hx := List.mem_singleton.mp h4
        subst hx
        exact str_append_ne_empty_left "Formato de importe inválido: " _ (by decide)
      · simp at h4
    · simp at h4

/-- Under any rejection condition of C10, `_validate_format` reports
at least one error. -/
theorem validate_format_ne_nil_of (fecha tipo categoria importe : String) (todayO : Int)
    (h : parseFecha fecha = none ∨
         (∃ d m y, parseFecha fecha = some (d, m, y) ∧ todayO < toDays y m d) ∨
         (∃ d m y, parseFecha fecha = some (d, m, y) ∧ toDays y m d < todayO - 365) ∨
         validTypes.contains tipo = false ∨
         (reMatchImporte 2 2 importe = false ∧ reMatchImporte 1 2 importe = false)) :
    validate_format fecha tipo categoria importe todayO ≠ [] := by
  intro hc
  simp only [validate_format] at hc
  rcases List.append_eq_nil.mp hc with ⟨hc123, himp⟩
  rcases List.append_eq_nil.mp hc123 with ⟨hc12, hcat⟩
  rcases List.append_eq_nil.mp hc12 with ⟨hdate, htipo⟩
  rcases h with h | ⟨d, m, y, hp, hf⟩ | ⟨d, m, y, hp, ho⟩ | h | ⟨h2, h12⟩
  · simp only [h] at hdate
    simp at hdate
  · simp only [hp] at hdate
    have hl := (List.append_eq_nil.mp hdate).1
    rw [if_pos hf] at hl
    simp at hl
  · simp only [hp] at hdate
    have hr := (List.append_eq_nil.mp hdate).2
    rw [if_pos ho] at hr
    simp at hr
  · rw [h] at htipo
    simp at htipo
  · rw [h2, h12] at himp
    simp at himp

/-- Claim C10 (confirmed): `validate_expense` rejects — returning
`is_valid: False` together with a non-empty feedback message, before any
AI call — whenever `fecha` does not parse as `%d/%m/%Y`, or parses to a
date strictly after today, or to a date more than 365 days before today,
or `tipo` is not exactly `Gasto`/`Ingreso`, or `importe` fails the
comma-decimal pattern of the source. -/
theorem C10_format_rejections (fecha tipo categoria importe descripcion : String)
    (todayO : Int) (ai : AiOutcome)
    (h : parseFecha fecha = none ∨
         (∃ d m y, parseFecha fecha = some (d, m, y) ∧ todayO < toDays y m d) ∨
         (∃ d m y, parseFecha fecha = some (d, m, y) ∧ toDays y m d < todayO - 365) ∨
         validTypes.contains tipo = false ∨
         (reMatchImporte 2 2 importe = false ∧ reMatchImporte 1 2 importe = false)) :
    objGet (validate_expense fecha tipo categoria importe descripcion todayO ai)
        "is_valid" = JVal.bool false ∧
    ∃ s, objGet (validate_expense fecha tipo categoria importe descripcion todayO ai)
        "feedback" = JVal.str s ∧ s ≠ "" := by
  have hne := validate_format_ne_nil_of fecha tipo categoria importe todayO h
  rcases hq : validate_format fecha tipo categoria importe todayO with _ | ⟨a, as⟩
  · exact absurd hq hne
  · have hE : validate_expense fecha tipo categoria importe descripcion todayO ai =
        .obj [("is_valid", .bool false),
              ("feedback", .str (String.intercalate "; " (a :: as))),
              ("corrected_category", .null), ("corrected_type", .null)] := by
      unfold validate_expense
      rw [hq]
      rfl
    have ha : a ≠ "" :=
      validate_format_elems_ne_empty fecha tipo categoria importe todayO a
        (by rw [hq]; exact List.mem_cons_self a as)
    refine ⟨?_, String.intercalate "; " (a :: as), ?_, ?_⟩
    · rw [hE]
      rfl
    · rw [hE]
      rfl
    · exact intercalate_cons_ne_empty "; " a as (str_ne_empty_length a ha)

/-- Claim C10, witness: a date string that fails `%d/%m/%Y` parsing is
rejected. -/
theorem C10_witness :
    parseFecha "31-12-2030" = none ∧
    objGet (validate_expense "31-12-2030" "Gasto" "Otros" "12,34" "MERCADONA"
        739251 .modelUnavailable) "is_valid" = JVal.bool false := by
  refine ⟨rfl, ?_⟩
  exact (C10_format_rejections "31-12-2030" "Gasto" "Otros" "12,34" "MERCADONA"
    739251 .modelUnavailable (Or.inl rfl)).1
